import Mathlib

/-!
A shallow embedding of the paddler load balancer's admission/dispatch core
(`src/balancer/upstream_peer.rs` and `src/balancer/proxy_service.rs`),
together with theorems checking the natural-language specification against it.

Modelling conventions:
* `usize` counters are `Nat`, with arithmetic taken modulo `USIZE = 2 ^ 64`
  wherever the Rust code performs unchecked `+= 1` / `-= 1` (release-mode
  wrapping semantics).
* `SystemTime` is a `Nat`; `SystemTime::now()` becomes an explicit `now`
  argument threaded into every mutating operation.
* A tokio `OwnedSemaphorePermit` bundle is its permit count (`Nat`); the
  semaphore is its free-permit count (`Nat`).  Dropping a bundle of `n`
  permits adds `n` back to the semaphore; `split n` on a bundle of `m`
  permits removes `n` from the bundle when `n ≤ m` and returns a fresh
  bundle of `n` (here: the semaphore gains `n`, because the Rust code drops
  the split-off bundle immediately); when `n > m`, `split` returns `None`
  and the bundle is unchanged.  Calling `.unwrap()` on an absent bundle is a
  panic, modelled as the `none` outcome of an `Option`-valued operation.
* Fallible operations return `Except String` (the `Err`/`InternalError`
  paths of the Rust code).
* `std::net::SocketAddr` is modelled by its ordering-relevant content: the
  V4/V6 discriminant (V4 sorts before V6), the numeric IP, and the port,
  compared lexicographically as in the standard library.

The pool type `UpstreamPeerPool` (file `upstream_peer_pool.rs`) is not part
of the available sources; its operations are modelled from the specification
text and are marked `Modelled from the spec:` in their doc comments.
-/

/-- The wrap-around modulus of Rust's 64-bit `usize` arithmetic. -/
def USIZE : Nat := 2 ^ 64

/-- Model of `std::net::SocketAddr`: V4/V6 discriminant, numeric IP, port. -/
structure SockAddr where
  isV6 : Bool
  ip : Nat
  port : Nat
  deriving DecidableEq, Repr

/-- Model of `Ord for SocketAddr`: V4 before V6, then IP, then port. -/
def SockAddr.cmp (a b : SockAddr) : Ordering :=
  (compare a.isV6 b.isV6).then
    ((compare a.ip b.ip).then (compare a.port b.port))

instance : Ord SockAddr := ⟨SockAddr.cmp⟩

/-- Model of `StatusUpdate` (fields as consumed by `UpstreamPeer`). -/
structure StatusUpdate where
  agent_name : Option String
  error : Option String
  external_llamacpp_addr : SockAddr
  is_authorized : Option Bool
  is_slots_endpoint_enabled : Option Bool
  idle_slots_count : Nat
  processing_slots_count : Nat
  deriving DecidableEq, Repr

/-- Model of `UpstreamPeer` (`upstream_peer.rs`).  `slots_permissions` is
the owned permit bundle held in custody, as a permit count. -/
structure UpstreamPeer where
  agent_id : String
  agent_name : Option String
  error : Option String
  external_llamacpp_addr : SockAddr
  is_authorized : Option Bool
  is_slots_endpoint_enabled : Option Bool
  last_update : Nat
  quarantined_until : Option Nat
  slots_idle : Nat
  slots_processing : Nat
  slots_permissions : Option Nat
  deriving DecidableEq, Repr

/-- Model of `UpstreamPeerInfo` (`upstream_peer.rs`). -/
structure UpstreamPeerInfo where
  agent_id : String
  external_llamacpp_addr : SockAddr
  last_update : Nat
  deriving DecidableEq, Repr

/-- Model of `UpstreamPeer::info`. -/
def UpstreamPeer.info (p : UpstreamPeer) : UpstreamPeerInfo :=
  { agent_id := p.agent_id
    external_llamacpp_addr := p.external_llamacpp_addr
    last_update := p.last_update }

/-- Model of `UpstreamPeer::is_usable`. -/
def UpstreamPeer.is_usable (p : UpstreamPeer) : Bool :=
  decide (0 < p.slots_idle) && p.quarantined_until.isNone && p.error.isNone
    && (p.is_authorized == some true)

/-- Model of `UpstreamPeer::release_slot`: bump `last_update`, increment
`slots_idle`, decrement `slots_processing` (wrapping `usize` arithmetic). -/
def UpstreamPeer.release_slot (p : UpstreamPeer) (now : Nat) : UpstreamPeer :=
  { p with
    last_update := now
    slots_idle := (p.slots_idle + 1) % USIZE
    slots_processing := (p.slots_processing + (USIZE - 1)) % USIZE }

/-- Model of `UpstreamPeer::take_slot`: bump `last_update`, decrement
`slots_idle`, increment `slots_processing` (wrapping `usize` arithmetic). -/
def UpstreamPeer.take_slot (p : UpstreamPeer) (now : Nat) : UpstreamPeer :=
  { p with
    last_update := now
    slots_idle := (p.slots_idle + (USIZE - 1)) % USIZE
    slots_processing := (p.slots_processing + 1) % USIZE }

/-- Model of `UpstreamPeer::release_permits`:
`self.slots_permissions.as_mut().unwrap().split(n)`, with the split-off
bundle dropped on the spot.  `sem` is the semaphore's free-permit count;
`none` is the `unwrap` panic on an absent bundle.  When the bundle holds
fewer than `n` permits, tokio's `split` returns `None`, which the code
discards: nothing is released and nothing fails. -/
def UpstreamPeer.release_permits (p : UpstreamPeer) (sem n : Nat) :
    Option (UpstreamPeer × Nat) :=
  match p.slots_permissions with
  | none => none
  | some m =>
    if n ≤ m then
      some ({ p with slots_permissions := some (m - n) }, sem + n)
    else
      some (p, sem)

/-- Model of `UpstreamPeer::update_status`: overwrite the telemetry fields,
set `last_update` to `now`, clear `quarantined_until`; if the reported
`processing_slots_count` undercuts the stored `slots_processing`, release
the difference from the custody bundle; finally overwrite both counters. -/
def UpstreamPeer.update_status (p : UpstreamPeer) (su : StatusUpdate)
    (now sem : Nat) : Option (UpstreamPeer × Nat) :=
  let q : UpstreamPeer :=
    { p with
      agent_name := su.agent_name
      error := su.error
      external_llamacpp_addr := su.external_llamacpp_addr
      is_authorized := su.is_authorized
      is_slots_endpoint_enabled := su.is_slots_endpoint_enabled
      last_update := now
      quarantined_until := none }
  let step : Option (UpstreamPeer × Nat) :=
    if su.processing_slots_count < q.slots_processing then
      q.release_permits sem (q.slots_processing - su.processing_slots_count)
    else
      some (q, sem)
  match step with
  | none => none
  | some (q, sem) =>
    some ({ q with
            slots_idle := su.idle_slots_count
            slots_processing := su.processing_slots_count }, sem)

/-- Model of `UpstreamPeer::store_permit`: merge the incoming bundle into
custody, or install it if no bundle is held. -/
def UpstreamPeer.store_permit (p : UpstreamPeer) (permit : Nat) : UpstreamPeer :=
  match p.slots_permissions with
  | some m => { p with slots_permissions := some (m + permit) }
  | none => { p with slots_permissions := some permit }

/-- Model of `UpstreamPeer::slots_count` (wrapping `usize` addition). -/
def UpstreamPeer.slots_count (p : UpstreamPeer) : Nat :=
  (p.slots_idle + p.slots_processing) % USIZE

/-- Model of `Ord for UpstreamPeer`: usable peers first, then larger
`slots_idle`, then smaller `slots_processing`, then address ascending. -/
def UpstreamPeer.cmp (a b : UpstreamPeer) : Ordering :=
  (compare b.is_usable a.is_usable).then
    ((compare b.slots_idle a.slots_idle).then
      ((compare a.slots_processing b.slots_processing).then
        (compare a.external_llamacpp_addr b.external_llamacpp_addr)))

/-- Model of `PartialEq for UpstreamPeer`: equality by `agent_id` alone. -/
def UpstreamPeer.eq (a b : UpstreamPeer) : Bool :=
  a.agent_id == b.agent_id

/-- Find the peer with the given `agent_id` in the pool's peer collection. -/
def findPeer (l : List UpstreamPeer) (agent_id : String) : Option UpstreamPeer :=
  l.find? fun q => q.agent_id == agent_id

/-- Apply `f` to the peer(s) with the given `agent_id`, in place. -/
def modifyPeer (l : List UpstreamPeer) (agent_id : String)
    (f : UpstreamPeer → UpstreamPeer) : List UpstreamPeer :=
  l.map fun q => if q.agent_id == agent_id then f q else q

/-- Modelled from the spec: the pool state of `upstream_peer_pool.rs`
(missing from the available sources): the peer map keyed by `agent_id`
and the admission semaphore's free-permit count. -/
structure UpstreamPeerPool where
  peers : List UpstreamPeer
  available_permits : Nat
  deriving DecidableEq, Repr

/-- Modelled from the spec: `total_slots`, the sum of `slots_idle +
slots_processing` over peers whose authorization is true. -/
def UpstreamPeerPool.total_slots (pool : UpstreamPeerPool) : Nat :=
  (pool.peers.filter fun p => p.is_authorized == some true).foldl
    (fun acc p => acc + p.slots_count) 0

/-- Permits currently held in peer custodies. -/
def UpstreamPeerPool.outstanding (pool : UpstreamPeerPool) : Nat :=
  pool.peers.foldl (fun acc p => acc + p.slots_permissions.getD 0) 0

/-- Modelled from the spec: `restore_integrity` (missing
`upstream_peer_pool.rs`): reconcile the semaphore so that free permits plus
outstanding custody equals `total_slots`; a surplus is drained (never below
zero free permits), a deficit is added. -/
def UpstreamPeerPool.restore_integrity (pool : UpstreamPeerPool) : UpstreamPeerPool :=
  { pool with available_permits := pool.total_slots - pool.outstanding }

/-- Modelled from the spec: `take_slot(agent_id)` (missing
`upstream_peer_pool.rs`): fails if the peer is missing or `slots_idle == 0`;
otherwise the peer-level `take_slot` runs (decrement idle, increment
processing, bump `last_update`). -/
def UpstreamPeerPool.take_slot (pool : UpstreamPeerPool) (agent_id : String)
    (now : Nat) : Except String UpstreamPeerPool :=
  match findPeer pool.peers agent_id with
  | none => Except.error "peer not found"
  | some p =>
    if p.slots_idle = 0 then
      Except.error "peer has no idle slots"
    else
      Except.ok { pool with peers := modifyPeer pool.peers agent_id (fun q => q.take_slot now) }

/-- Modelled from the spec: `release_slot(agent_id, expected_last_update)`
(missing `upstream_peer_pool.rs`): a stale release (stored `last_update`
differs from the expected one) is a no-op on counters; otherwise fails if
the peer is missing or `slots_processing == 0`, else the peer-level
`release_slot` runs. -/
def UpstreamPeerPool.release_slot (pool : UpstreamPeerPool) (agent_id : String)
    (expected_last_update now : Nat) : Except String UpstreamPeerPool :=
  match findPeer pool.peers agent_id with
  | none => Except.error "peer not found"
  | some p =>
    if p.last_update ≠ expected_last_update then
      Except.ok pool
    else if p.slots_processing = 0 then
      Except.error "peer has no processing slots"
    else
      Except.ok { pool with peers := modifyPeer pool.peers agent_id (fun q => q.release_slot now) }

/-- Modelled from the spec: `release_one_permit(agent_id)` (missing
`upstream_peer_pool.rs`): split one permit out of the peer's custody and
drop it, returning one unit to the semaphore; failures of the peer lookup
or of the split surface as errors. -/
def UpstreamPeerPool.release_one_permit (pool : UpstreamPeerPool)
    (agent_id : String) : Except String UpstreamPeerPool :=
  match findPeer pool.peers agent_id with
  | none => Except.error "peer not found"
  | some p =>
    match p.release_permits pool.available_permits 1 with
    | none => Except.error "peer holds no permits"
    | some (q, sem) =>
      Except.ok { peers := modifyPeer pool.peers agent_id (fun _ => q)
                  available_permits := sem }

/-- Modelled from the spec: `store_permit(agent_id, permit)` (missing
`upstream_peer_pool.rs`): merge the bundle into the peer's custody and
return true; if the peer is gone, the bundle is dropped (its permits return
to the semaphore) and false is returned. -/
def UpstreamPeerPool.store_permit (pool : UpstreamPeerPool) (agent_id : String)
    (permit : Nat) : UpstreamPeerPool × Bool :=
  match findPeer pool.peers agent_id with
  | none => ({ pool with available_permits := pool.available_permits + permit }, false)
  | some _ => ({ pool with peers := modifyPeer pool.peers agent_id (fun q => q.store_permit permit) }, true)

/-- Quarantine duration policy constant (10 s), from the spec. -/
def quarantineDuration : Nat := 10000

/-- Modelled from the spec: `quarantine_peer(agent_id)` (missing
`upstream_peer_pool.rs`): set `quarantined_until = now + Δ` and return true
if the peer exists and is not already quarantined; return false otherwise. -/
def UpstreamPeerPool.quarantine_peer (pool : UpstreamPeerPool) (agent_id : String)
    (now : Nat) : UpstreamPeerPool × Bool :=
  match findPeer pool.peers agent_id with
  | none => (pool, false)
  | some p =>
    match p.quarantined_until with
    | some _ => (pool, false)
    | none =>
      let f := fun q =>
        { q with quarantined_until := some (now + quarantineDuration) }
      ({ pool with peers := modifyPeer pool.peers agent_id f }, true)

/-- The top-ranked peer under `UpstreamPeer.cmp` (first minimal element). -/
def UpstreamPeerPool.best_peer (pool : UpstreamPeerPool) : Option UpstreamPeer :=
  pool.peers.foldl
    (fun acc p =>
      match acc with
      | none => some p
      | some q => if p.cmp q = Ordering.lt then some p else some q)
    none

/-- Modelled from the spec: `use_best_peer()` (missing
`upstream_peer_pool.rs`): the top-ranked peer's descriptor if it exists and
is usable, otherwise none; counters are not mutated. -/
def UpstreamPeerPool.use_best_peer (pool : UpstreamPeerPool) : Option UpstreamPeerInfo :=
  match pool.best_peer with
  | some p => if p.is_usable then some p.info else none
  | none => none

/-- Model of `LlamaCppContext` (`proxy_service.rs`). -/
structure LlamaCppContext where
  slot_taken : Bool
  selected_peer : Option UpstreamPeerInfo
  uses_slots : Bool
  deriving DecidableEq, Repr

/-- Model of `ProxyService::new_ctx`. -/
def ProxyService.new_ctx : LlamaCppContext :=
  { selected_peer := none, slot_taken := false, uses_slots := false }

/-- Model of the `ProxyService::release_slot` helper: when a peer is
selected, run the pool's fenced `release_slot`, restore integrity, and
clear `slot_taken`. -/
def ProxyService.release_slot (pool : UpstreamPeerPool) (ctx : LlamaCppContext)
    (now : Nat) : Except String (UpstreamPeerPool × LlamaCppContext) :=
  match ctx.selected_peer with
  | none => Except.ok (pool, ctx)
  | some peer => do
    let pool ← pool.release_slot peer.agent_id peer.last_update now
    let pool := pool.restore_integrity
    Except.ok (pool, { ctx with slot_taken := false })

/-- Model of the `ProxyService::release_permit` helper: when a peer is
selected, release one permit from its custody and clear `slot_taken`. -/
def ProxyService.release_permit (pool : UpstreamPeerPool) (ctx : LlamaCppContext) :
    Except String (UpstreamPeerPool × LlamaCppContext) :=
  match ctx.selected_peer with
  | none => Except.ok (pool, ctx)
  | some peer => do
    let pool ← pool.release_one_permit peer.agent_id
    Except.ok (pool, { ctx with slot_taken := false })

/-- Model of the `ProxyService::take_slot` helper: when a peer is selected,
run the pool's `take_slot`, restore integrity, and set `slot_taken`. -/
def ProxyService.take_slot (pool : UpstreamPeerPool) (ctx : LlamaCppContext)
    (now : Nat) : Except String (UpstreamPeerPool × LlamaCppContext) :=
  match ctx.selected_peer with
  | none => Except.ok (pool, ctx)
  | some peer => do
    let pool ← pool.take_slot peer.agent_id now
    let pool := pool.restore_integrity
    Except.ok (pool, { ctx with slot_taken := true })

/-- Result of `ProxyService::request_filter`: either continue proxying (an
`Ok(false)` with the updated context) or fail downstream. -/
inductive FilterResult where
  | proceed (ctx : LlamaCppContext)
  | downstreamError
  deriving DecidableEq, Repr

/-- Model of `ProxyService::request_filter`: set `uses_slots` by exact
match on the request path; reject `/slots` when the slots endpoint is
disabled; never short-circuit otherwise. -/
def ProxyService.request_filter (slots_endpoint_enable : Bool) (path : String)
    (ctx : LlamaCppContext) : FilterResult :=
  if path = "/slots" then
    if !slots_endpoint_enable then
      FilterResult.downstreamError
    else
      FilterResult.proceed { ctx with uses_slots := false }
  else if path = "/chat/completions" then
    FilterResult.proceed { ctx with uses_slots := true }
  else if path = "/completion" then
    FilterResult.proceed { ctx with uses_slots := true }
  else if path = "/v1/chat/completions" then
    FilterResult.proceed { ctx with uses_slots := true }
  else
    FilterResult.proceed { ctx with uses_slots := false }

/-- Model of `ProxyService::connected_to_upstream`: take a slot only for a
slot-using request whose slot is not yet taken. -/
def ProxyService.connected_to_upstream (pool : UpstreamPeerPool)
    (ctx : LlamaCppContext) (now : Nat) :
    Except String (UpstreamPeerPool × LlamaCppContext) :=
  if ctx.uses_slots && !ctx.slot_taken then
    ProxyService.take_slot pool ctx now
  else
    Except.ok (pool, ctx)

/-- Model of `ProxyService::error_while_proxy`: compute the retry decision
(`client_reused && !retry_buffer_truncated`); if the slot is taken, always
release the slot, and release the permit only when not retrying; the
returned `Bool` is the retry decision applied to the outgoing error. -/
def ProxyService.error_while_proxy (pool : UpstreamPeerPool)
    (ctx : LlamaCppContext) (client_reused retry_buffer_truncated : Bool)
    (now : Nat) : Except String (UpstreamPeerPool × LlamaCppContext × Bool) :=
  let retry := client_reused && !retry_buffer_truncated
  if ctx.slot_taken then do
    let (pool, ctx) ← ProxyService.release_slot pool ctx now
    if !retry then do
      let (pool, ctx) ← ProxyService.release_permit pool ctx
      Except.ok (pool, ctx, retry)
    else
      Except.ok (pool, ctx, retry)
  else
    Except.ok (pool, ctx, retry)

/-- Model of `ProxyService::fail_to_connect`: when a peer is selected,
attempt to quarantine it; on a fresh quarantine restore integrity, clear
`selected_peer` and ask the framework to retry (`set_retry(true)`, the
returned `Bool`); when `quarantine_peer` reports false, nothing changes. -/
def ProxyService.fail_to_connect (pool : UpstreamPeerPool)
    (ctx : LlamaCppContext) (now : Nat) :
    UpstreamPeerPool × LlamaCppContext × Bool :=
  match ctx.selected_peer with
  | none => (pool, ctx, false)
  | some peer =>
    match pool.quarantine_peer peer.agent_id now with
    | (pool, true) =>
      (pool.restore_integrity, { ctx with selected_peer := none }, true)
    | (pool, false) => (pool, ctx, false)

/-- Result of `ProxyService::upstream_peer`: the selected upstream address,
an internal error, or suspension in the semaphore's acquire queue. -/
inductive UpstreamPeerOutcome where
  | ok (pool : UpstreamPeerPool) (ctx : LlamaCppContext) (addr : SockAddr)
  | internalError (pool : UpstreamPeerPool) (ctx : LlamaCppContext)
  | wouldBlock
  deriving DecidableEq, Repr

/-- Model of `ProxyService::upstream_peer`: when no peer is selected yet,
acquire one permit from the admission semaphore (suspending if none is
free), select the best peer, and transfer the in-hand permit into its
custody; error paths drop the in-hand permit back to the semaphore.  When a
peer is already selected, forward to it without touching the semaphore. -/
def ProxyService.upstream_peer (pool : UpstreamPeerPool)
    (ctx : LlamaCppContext) : UpstreamPeerOutcome :=
  match ctx.selected_peer with
  | some peer => UpstreamPeerOutcome.ok pool ctx peer.external_llamacpp_addr
  | none =>
    if pool.available_permits = 0 then
      UpstreamPeerOutcome.wouldBlock
    else
      let pool := { pool with available_permits := pool.available_permits - 1 }
      match pool.use_best_peer with
      | none =>
        UpstreamPeerOutcome.internalError
          { pool with available_permits := pool.available_permits + 1 } ctx
      | some info =>
        let ctx := { ctx with selected_peer := some info }
        match pool.store_permit info.agent_id 1 with
        | (pool, true) => UpstreamPeerOutcome.ok pool ctx info.external_llamacpp_addr
        | (pool, false) => UpstreamPeerOutcome.internalError pool ctx

/-! Concrete fixtures used to evaluate the model at specific inputs. -/

/-- A concrete V4 address. -/
def addrA : SockAddr := { isV6 := false, ip := 1, port := 80 }

/-- A concrete V4 address distinct from `addrA`. -/
def addrB : SockAddr := { isV6 := false, ip := 2, port := 80 }

/-- A healthy, authorized, un-quarantined peer with one idle slot. -/
def peerA : UpstreamPeer :=
  { agent_id := "a", agent_name := none, error := none,
    external_llamacpp_addr := addrA, is_authorized := some true,
    is_slots_endpoint_enabled := some true, last_update := 0,
    quarantined_until := none, slots_idle := 1, slots_processing := 0,
    slots_permissions := none }

/-- Pool holding `peerA` with one free admission permit. -/
def c1pool : UpstreamPeerPool := { peers := [peerA], available_permits := 1 }

/-- `c1pool` after `upstream_peer` ran: the permit moved into custody. -/
def c1poolAfter : UpstreamPeerPool :=
  { peers := [{ peerA with slots_permissions := some 1 }], available_permits := 0 }

/-- The context after `upstream_peer` selected `peerA` (slots unused). -/
def c1ctxAfter : LlamaCppContext :=
  { slot_taken := false, selected_peer := some peerA.info, uses_slots := false }

/-- Peer whose status update will shrink `slots_processing` by 2. -/
def c2peer : UpstreamPeer :=
  { peerA with slots_processing := 3, slots_permissions := some 3 }

/-- Status update reporting one processing slot (two fewer than `c2peer`). -/
def c2update : StatusUpdate :=
  { agent_name := some "n", error := none, external_llamacpp_addr := addrB,
    is_authorized := some true, is_slots_endpoint_enabled := some false,
    idle_slots_count := 4, processing_slots_count := 1 }

/-- Peer holding a custody bundle of a single permit. -/
def c3peer : UpstreamPeer := { peerA with slots_permissions := some 1 }

/-- Peer holding no custody bundle at all. -/
def c3peerNone : UpstreamPeer := peerA

/-- An already-quarantined peer. -/
def qpeer : UpstreamPeer := { peerA with quarantined_until := some 5 }

/-- Pool holding the already-quarantined `qpeer`. -/
def qpool : UpstreamPeerPool := { peers := [qpeer], available_permits := 1 }

/-- Context that has selected `qpeer`. -/
def qctx : LlamaCppContext :=
  { slot_taken := false, selected_peer := some qpeer.info, uses_slots := true }

/-- Pool holding the fresh (un-quarantined) `peerA`. -/
def fpool : UpstreamPeerPool := { peers := [peerA], available_permits := 1 }

/-- Context that has selected the fresh `peerA`. -/
def fctx : LlamaCppContext :=
  { slot_taken := false, selected_peer := some peerA.info, uses_slots := true }

/-- Peer mid-request: slot taken, one processing slot, one permit held. -/
def c5peer : UpstreamPeer :=
  { peerA with
    slots_idle := 0
    slots_processing := 1
    slots_permissions := some 1
    last_update := 3 }

/-- Pool holding `c5peer`. -/
def c5pool : UpstreamPeerPool := { peers := [c5peer], available_permits := 0 }

/-- Context mid-request against `c5peer` with its slot taken. -/
def c5ctx : LlamaCppContext :=
  { slot_taken := true, selected_peer := some c5peer.info, uses_slots := true }

/-- Pool holding a peer with zero idle and zero processing slots. -/
def c6pool : UpstreamPeerPool :=
  { peers := [{ peerA with slots_idle := 0, slots_processing := 0 }],
    available_permits := 0 }

/-- Peer with one idle and one processing slot. -/
def c6peer : UpstreamPeer := { peerA with slots_idle := 1, slots_processing := 1 }

/-- A peer identical to `peerA` in every ranking field but with a different
`agent_id`. -/
def peerX : UpstreamPeer := { peerA with agent_id := "x" }

/-- Usable peer with five idle slots. -/
def peerIdle5 : UpstreamPeer := { peerA with slots_idle := 5 }

/-- Usable peer with three idle slots. -/
def peerIdle3 : UpstreamPeer := { peerA with slots_idle := 3 }

/-- Usable peer with one idle slot (same ranking fields as `peerA`). -/
def peerIdle1 : UpstreamPeer := { peerA with slots_idle := 1, agent_id := "z" }

/-- `fpool` after a fresh quarantine of `peerA` at time 100. -/
def fpoolQ : UpstreamPeerPool :=
  { peers := [{ peerA with quarantined_until := some (100 + quarantineDuration) }]
    available_permits := 1 }

/-- The specification's classification table: the paths for which
`uses_slots` is true. -/
def usesSlotsSpec (path : String) : Bool :=
  decide (path = "/chat/completions" ∨ path = "/completion" ∨
    path = "/v1/chat/completions")

/-! Helper lemmas. -/

theorem USIZE_eq : USIZE = 18446744073709551616 := by norm_num [USIZE]

theorem findPeer_some_agent_id {l : List UpstreamPeer} {aid : String}
    {p : UpstreamPeer} (h : findPeer l aid = some p) : p.agent_id = aid := by
  have h' := List.find?_some h
  simpa using h'

theorem findPeer_modifyPeer (l : List UpstreamPeer) (aid : String)
    (f : UpstreamPeer → UpstreamPeer) (p : UpstreamPeer)
    (h : findPeer l aid = some p) (hf : (f p).agent_id = aid) :
    findPeer (modifyPeer l aid f) aid = some (f p) := by
  induction l with
  | nil => simp [findPeer] at h
  | cons x xs ih =>
    simp only [findPeer, modifyPeer, List.map_cons] at h ⊢
    by_cases hx : x.agent_id = aid
    · rw [List.find?_cons_of_pos _ (by simp [hx])] at h
      cases h
      rw [if_pos (by simp [hx]), List.find?_cons_of_pos _ (by simp [hf])]
    · rw [List.find?_cons_of_neg _ (by simp [hx])] at h
      rw [if_neg (by simp [hx]), List.find?_cons_of_neg _ (by simp [hx])]
      exact ih h

/-! Claim theorems. -/

/-- C8: a peer is usable exactly when it has an idle slot, is not
quarantined, reports no error, and is affirmatively authorized (an
undetermined authorization counts as not usable). -/
theorem c8_is_usable_iff (p : UpstreamPeer) :
    p.is_usable = true ↔
      (0 < p.slots_idle ∧ p.quarantined_until = none ∧ p.error = none ∧
        p.is_authorized = some true) := by
  simp [UpstreamPeer.is_usable, Option.isNone_iff_eq_none, and_assoc]

/-- C9: `request_filter` classifies exactly by the request path:
`uses_slots` is true precisely for the three completion paths, false for
every other path, and the only short-circuit is a downstream error for
`/slots` while the slots endpoint is disabled. -/
theorem c9_request_filter_classification (enable : Bool) (path : String)
    (ctx : LlamaCppContext) :
    (ProxyService.request_filter enable path ctx = FilterResult.downstreamError ↔
      (path = "/slots" ∧ enable = false)) ∧
    (¬(path = "/slots" ∧ enable = false) →
      ProxyService.request_filter enable path ctx =
        FilterResult.proceed { ctx with uses_slots := usesSlotsSpec path }) := by
  unfold ProxyService.request_filter usesSlotsSpec
  by_cases h1 : path = "/slots"
  · subst h1
    cases enable <;> simp
  · by_cases h2 : path = "/chat/completions"
    · subst h2; simp
    · by_cases h3 : path = "/completion"
      · subst h3; simp
      · by_cases h4 : path = "/v1/chat/completions"
        · subst h4; simp
        · simp [h1, h2, h3, h4]

/-- C9 witness: a `/completion` request proceeds with `uses_slots = true`. -/
theorem c9_witness :
    ProxyService.request_filter true "/completion" ProxyService.new_ctx =
      FilterResult.proceed { ProxyService.new_ctx with uses_slots := true } := by
  have h := (c9_request_filter_classification true "/completion"
    ProxyService.new_ctx).2 (by simp)
  simpa using h

/-- C10: `take_slot` and `release_slot` each preserve `slots_count`, and a
`take_slot` followed by a `release_slot` restores both counters, changing
only `last_update` (for counters in the `usize` range). -/
theorem c10_slot_roundtrip (p : UpstreamPeer) (now1 now2 : Nat)
    (h1 : p.slots_idle < USIZE) (h2 : p.slots_processing < USIZE) :
    (p.take_slot now1).slots_count = p.slots_count ∧
    (p.release_slot now1).slots_count = p.slots_count ∧
    (p.take_slot now1).release_slot now2 = { p with last_update := now2 } := by
  obtain ⟨aid, an, er, ad, au, se, lu, qu, idle, proc, perm⟩ := p
  simp only [UpstreamPeer.take_slot, UpstreamPeer.release_slot,
    UpstreamPeer.slots_count, UpstreamPeer.mk.injEq, USIZE_eq] at *
  refine ⟨by omega, by omega, ?_⟩
  simp only [and_true, true_and]
  constructor <;> omega

/-- C10 witness: round trip on a concrete peer. -/
theorem c10_witness :
    (peerA.take_slot 5).slots_count = peerA.slots_count ∧
    (peerA.release_slot 5).slots_count = peerA.slots_count ∧
    (peerA.take_slot 5).release_slot 6 = { peerA with last_update := 6 } :=
  c10_slot_roundtrip peerA 5 6 (by decide) (by decide)

/-- C3 counterexample: with a custody bundle of one permit, a shrink
requiring two releases neither fails nor clamps: `release_permits` succeeds
and releases nothing (custody and semaphore unchanged), where the claim
demands a surfaced pool-integrity error. -/
theorem c3_counterexample :
    UpstreamPeer.release_permits c3peer 5 2 = some (c3peer, 5) := by rfl

/-- C3 amended: when the custody bundle holds fewer than `n` permits, the
`split(n)` result is `None` and is discarded, so the operation silently
releases zero permits and surfaces no error; when no bundle is held at all,
the `unwrap` panics instead of surfacing an error. -/
theorem c3_amended_silent_noop :
    (∀ (p : UpstreamPeer) (sem n m : Nat), p.slots_permissions = some m →
      m < n → p.release_permits sem n = some (p, sem)) ∧
    (∀ (p : UpstreamPeer) (sem n : Nat), p.slots_permissions = none →
      p.release_permits sem n = none) := by
  constructor
  · intro p sem n m hc hmn
    simp [UpstreamPeer.release_permits, hc, Nat.not_le.mpr hmn]
  · intro p sem n hc
    simp [UpstreamPeer.release_permits, hc]

/-- C3 amended witness: both behaviors at concrete peers. -/
theorem c3_amended_witness :
    UpstreamPeer.release_permits c3peer 7 2 = some (c3peer, 7) ∧
    UpstreamPeer.release_permits c3peerNone 7 2 = none :=
  ⟨c3_amended_silent_noop.1 c3peer 7 2 1 rfl (by decide),
   c3_amended_silent_noop.2 c3peerNone 7 2 rfl⟩

/-- C6: the pool-level `take_slot` fails on a peer with `slots_idle = 0`
and the pool-level `release_slot` fails (non-stale) on a peer with
`slots_processing = 0`, leaving the pool unchanged (an `error` result
carries no new pool state); and under the preconditions `slots_idle > 0`
and `slots_processing > 0` the peer-level decrements never underflow. -/
theorem c6_guards (pool : UpstreamPeerPool) (agent : String) (now : Nat)
    (p q : UpstreamPeer)
    (hfind : findPeer pool.peers agent = some p)
    (hidle0 : p.slots_idle = 0) (hproc0 : p.slots_processing = 0)
    (hq1 : 0 < q.slots_idle) (hq2 : q.slots_idle < USIZE)
    (hq3 : 0 < q.slots_processing) (hq4 : q.slots_processing < USIZE) :
    pool.take_slot agent now = Except.error "peer has no idle slots" ∧
    pool.release_slot agent p.last_update now =
      Except.error "peer has no processing slots" ∧
    (q.take_slot now).slots_idle + 1 = q.slots_idle ∧
    (q.release_slot now).slots_processing + 1 = q.slots_processing := by
  refine ⟨?_, ?_, ?_, ?_⟩
  · simp [UpstreamPeerPool.take_slot, hfind, hidle0]
  · simp [UpstreamPeerPool.release_slot, hfind, hproc0]
  · simp only [UpstreamPeer.take_slot, USIZE_eq] at *
    omega
  · simp only [UpstreamPeer.release_slot, USIZE_eq] at *
    omega

/-- C6 witness: concrete zero-slot peer and concrete positive peer. -/
theorem c6_witness :
    c6pool.take_slot "a" 9 = Except.error "peer has no idle slots" ∧
    c6pool.release_slot "a" 0 9 = Except.error "peer has no processing slots" ∧
    (c6peer.take_slot 9).slots_idle + 1 = c6peer.slots_idle ∧
    (c6peer.release_slot 9).slots_processing + 1 = c6peer.slots_processing :=
  c6_guards c6pool "a" 9 { peerA with slots_idle := 0, slots_processing := 0 }
    c6peer rfl rfl rfl (by decide) (by decide) (by decide) (by decide)

/-- C2: on a status update lowering `slots_processing` by `K` with at least
`K` permits in custody, `update_status` releases exactly `K` permits back
to the semaphore, overwrites the telemetry fields, clears
`quarantined_until`, and sets `last_update` to now. -/
theorem c2_update_status_shrink (p : UpstreamPeer) (su : StatusUpdate)
    (now sem m : Nat)
    (hcust : p.slots_permissions = some m)
    (hlt : su.processing_slots_count < p.slots_processing)
    (hk : p.slots_processing - su.processing_slots_count ≤ m) :
    p.update_status su now sem = some
      ({ agent_id := p.agent_id
         agent_name := su.agent_name
         error := su.error
         external_llamacpp_addr := su.external_llamacpp_addr
         is_authorized := su.is_authorized
         is_slots_endpoint_enabled := su.is_slots_endpoint_enabled
         last_update := now
         quarantined_until := none
         slots_idle := su.idle_slots_count
         slots_processing := su.processing_slots_count
         slots_permissions :=
           some (m - (p.slots_processing - su.processing_slots_count)) },
       sem + (p.slots_processing - su.processing_slots_count)) := by
  simp [UpstreamPeer.update_status, UpstreamPeer.release_permits, hcust, hlt, hk]

/-- C2 witness: shrinking from three to one processing slots releases
exactly two permits. -/
theorem c2_witness :
    c2peer.update_status c2update 9 10 = some
      ({ agent_id := c2peer.agent_id
         agent_name := c2update.agent_name
         error := c2update.error
         external_llamacpp_addr := c2update.external_llamacpp_addr
         is_authorized := c2update.is_authorized
         is_slots_endpoint_enabled := c2update.is_slots_endpoint_enabled
         last_update := 9
         quarantined_until := none
         slots_idle := c2update.idle_slots_count
         slots_processing := c2update.processing_slots_count
         slots_permissions :=
           some (3 - (c2peer.slots_processing - c2update.processing_slots_count)) },
       10 + (c2peer.slots_processing - c2update.processing_slots_count)) :=
  c2_update_status_shrink c2peer c2update 9 10 3 rfl (by decide) (by decide)

/-- C4 counterexample: with the selected peer already quarantined
(`quarantine_peer` returns false), `fail_to_connect` leaves the context
untouched — `selected_peer` is not cleared — and does not request a retry,
where the claim demands quarantine, clearing, and retry in every
selected-peer case. -/
theorem c4_counterexample :
    ProxyService.fail_to_connect qpool qctx 100 = (qpool, qctx, false) ∧
    qctx.selected_peer = some qpeer.info :=
  ⟨rfl, rfl⟩

/-- C4 amended: with a peer selected, a fresh quarantine
(`quarantine_peer` returns true) restores integrity, clears
`selected_peer`, and marks the error retryable; when `quarantine_peer`
returns false (peer missing or already quarantined), the context is left
unchanged and no retry is requested. -/
theorem c4_amended_fail_to_connect (pool pool1 : UpstreamPeerPool)
    (ctx : LlamaCppContext) (now : Nat) (info : UpstreamPeerInfo)
    (hsel : ctx.selected_peer = some info) :
    (pool.quarantine_peer info.agent_id now = (pool1, true) →
      ProxyService.fail_to_connect pool ctx now =
        (pool1.restore_integrity, { ctx with selected_peer := none }, true)) ∧
    (pool.quarantine_peer info.agent_id now = (pool1, false) →
      ProxyService.fail_to_connect pool ctx now = (pool1, ctx, false)) := by
  constructor <;> intro hq <;> simp [ProxyService.fail_to_connect, hsel, hq]

/-- C4 amended witness: a fresh quarantine clears the selection and
requests a retry. -/
theorem c4_witness :
    ProxyService.fail_to_connect fpool fctx 100 =
      (fpoolQ.restore_integrity, { fctx with selected_peer := none }, true) :=
  (c4_amended_fail_to_connect fpool fpoolQ fctx 100 peerA.info rfl).1 rfl

open Batteries in
theorem sockAddr_cmp_eq_lex :
    SockAddr.cmp = compareLex (compareOn SockAddr.isV6)
      (compareLex (compareOn SockAddr.ip) (compareOn SockAddr.port)) := rfl

open Batteries in
theorem sockAddr_transOrd : Batteries.TransOrd SockAddr := by
  have h : (compare : SockAddr → SockAddr → Ordering) = compareLex (compareOn SockAddr.isV6)
      (compareLex (compareOn SockAddr.ip) (compareOn SockAddr.port)) := rfl
  rw [Batteries.TransOrd, h]
  infer_instance

open Batteries in
theorem peer_cmp_eq_lex :
    UpstreamPeer.cmp = compareLex (flip (compareOn UpstreamPeer.is_usable))
      (compareLex (flip (compareOn UpstreamPeer.slots_idle))
        (compareLex (compareOn UpstreamPeer.slots_processing)
          (compareOn UpstreamPeer.external_llamacpp_addr))) := rfl

open Batteries in
theorem peer_transCmp : Batteries.TransCmp UpstreamPeer.cmp := by
  haveI := sockAddr_transOrd
  rw [peer_cmp_eq_lex]
  infer_instance

theorem bool_compare_eq_iff (x y : Bool) : compare x y = Ordering.eq ↔ x = y := by
  cases x <;> cases y <;> decide

theorem bool_compare_lt_iff (x y : Bool) :
    compare x y = Ordering.lt ↔ (x = false ∧ y = true) := by
  cases x <;> cases y <;> decide

theorem sockAddr_compare_def (a b : SockAddr) : compare a b = SockAddr.cmp a b := rfl

theorem sockAddr_cmp_eq_iff (a b : SockAddr) :
    SockAddr.cmp a b = Ordering.eq ↔ a = b := by
  obtain ⟨v, i, pt⟩ := a
  obtain ⟨v', i', pt'⟩ := b
  simp [SockAddr.cmp, Ordering.then_eq_eq, Nat.compare_eq_eq, bool_compare_eq_iff,
    SockAddr.mk.injEq, and_assoc]

theorem peer_cmp_eq_char (a b : UpstreamPeer) :
    UpstreamPeer.cmp a b = Ordering.eq ↔
      (b.is_usable = a.is_usable ∧ b.slots_idle = a.slots_idle ∧
        a.slots_processing = b.slots_processing ∧
        a.external_llamacpp_addr = b.external_llamacpp_addr) := by
  simp [UpstreamPeer.cmp, Ordering.then_eq_eq, Nat.compare_eq_eq, bool_compare_eq_iff,
    sockAddr_compare_def, sockAddr_cmp_eq_iff]

theorem peer_cmp_lt_char (a b : UpstreamPeer) :
    UpstreamPeer.cmp a b = Ordering.lt ↔
      ((b.is_usable = false ∧ a.is_usable = true) ∨
        (b.is_usable = a.is_usable ∧ (b.slots_idle < a.slots_idle ∨
          (b.slots_idle = a.slots_idle ∧ (a.slots_processing < b.slots_processing ∨
            (a.slots_processing = b.slots_processing ∧
              SockAddr.cmp a.external_llamacpp_addr b.external_llamacpp_addr =
                Ordering.lt)))))) := by
  simp [UpstreamPeer.cmp, Ordering.then_eq_lt, Nat.compare_eq_lt, Nat.compare_eq_eq,
    bool_compare_lt_iff, bool_compare_eq_iff, sockAddr_compare_def]

/-- C7 counterexample: two peers agreeing on every ranking field but with
different `agent_id` values compare `Equal` under `cmp` while `eq` is
false, so "cmp returns Equal if and only if they are equal" fails. -/
theorem c7_counterexample :
    UpstreamPeer.cmp peerA peerX = Ordering.eq ∧
    UpstreamPeer.eq peerA peerX = false := by
  constructor <;> decide

/-- C7 amended: `cmp` implements the ranking (usable first, larger
`slots_idle` first, smaller `slots_processing` first, address ascending),
is antisymmetric under swap and transitive (a total preorder, so sorting
is deterministic up to peers comparing `Equal`), and `cmp` returns `Equal`
exactly when the four ranking fields coincide — not when the `agent_id`
values coincide; peer equality itself is by `agent_id` alone. -/
theorem c7_amended_ordering :
    (∀ a b : UpstreamPeer, UpstreamPeer.cmp a b = Ordering.lt ↔
      ((b.is_usable = false ∧ a.is_usable = true) ∨
        (b.is_usable = a.is_usable ∧ (b.slots_idle < a.slots_idle ∨
          (b.slots_idle = a.slots_idle ∧
            (a.slots_processing < b.slots_processing ∨
              (a.slots_processing = b.slots_processing ∧
                SockAddr.cmp a.external_llamacpp_addr b.external_llamacpp_addr =
                  Ordering.lt))))))) ∧
    (∀ a b : UpstreamPeer, UpstreamPeer.cmp a b = Ordering.eq ↔
      (b.is_usable = a.is_usable ∧ b.slots_idle = a.slots_idle ∧
        a.slots_processing = b.slots_processing ∧
        a.external_llamacpp_addr = b.external_llamacpp_addr)) ∧
    (∀ a b : UpstreamPeer, (UpstreamPeer.cmp a b).swap = UpstreamPeer.cmp b a) ∧
    (∀ a b c : UpstreamPeer, UpstreamPeer.cmp a b = Ordering.lt →
      UpstreamPeer.cmp b c = Ordering.lt → UpstreamPeer.cmp a c = Ordering.lt) ∧
    (∀ a b : UpstreamPeer, UpstreamPeer.eq a b = true ↔ a.agent_id = b.agent_id) := by
  haveI := peer_transCmp
  refine ⟨peer_cmp_lt_char, peer_cmp_eq_char, ?_, ?_, ?_⟩
  · exact fun a b => Batteries.OrientedCmp.symm a b
  · exact fun a b c h1 h2 => Batteries.TransCmp.lt_trans h1 h2
  · intro a b
    simp [UpstreamPeer.eq]

/-- C7 amended witness: transitivity applied at three concrete peers. -/
theorem c7_witness :
    UpstreamPeer.cmp peerIdle5 peerIdle1 = Ordering.lt :=
  c7_amended_ordering.2.2.2.1 peerIdle5 peerIdle3 peerIdle1 (by decide) (by decide)

theorem exceptOk_bind {ε α β : Type} (a : α) (f : α → Except ε β) :
    ((Except.ok a : Except ε α) >>= f) = f a := rfl

/-- C5: on a mid-stream proxy error with the slot taken, the slot is always
released (idle up by one, processing down by one), the permit is released
from custody exactly when the request is not retryable, and the returned
error carries the retry decision `client_reused && !retry_buffer_truncated`. -/
theorem c5_error_while_proxy (pool : UpstreamPeerPool) (ctx : LlamaCppContext)
    (cr bt : Bool) (now : Nat) (info : UpstreamPeerInfo) (p : UpstreamPeer)
    (m : Nat)
    (hsel : ctx.selected_peer = some info)
    (htaken : ctx.slot_taken = true)
    (hfind : findPeer pool.peers info.agent_id = some p)
    (hfence : p.last_update = info.last_update)
    (hproc : 0 < p.slots_processing) (hprocU : p.slots_processing < USIZE)
    (hidleU : p.slots_idle + 1 < USIZE)
    (hcust : p.slots_permissions = some m) (hm : 1 ≤ m) :
    ∃ pool2 ctx2,
      ProxyService.error_while_proxy pool ctx cr bt now =
        Except.ok (pool2, ctx2, cr && !bt) ∧
      ctx2.slot_taken = false ∧
      ∃ p2, findPeer pool2.peers info.agent_id = some p2 ∧
        p2.slots_idle = p.slots_idle + 1 ∧
        p2.slots_processing = p.slots_processing - 1 ∧
        p2.slots_permissions = some (m - (if cr && !bt then 0 else 1)) := by
  have haid := findPeer_some_agent_id hfind
  have hpool1 : pool.release_slot info.agent_id info.last_update now = Except.ok { pool with peers := modifyPeer pool.peers info.agent_id (fun q => q.release_slot now) } := by
    simp [UpstreamPeerPool.release_slot, hfind, hfence, Nat.pos_iff_ne_zero.mp hproc]
  have hrel : ProxyService.release_slot pool ctx now = Except.ok (UpstreamPeerPool.restore_integrity { pool with peers := modifyPeer pool.peers info.agent_id (fun q => q.release_slot now) }, { ctx with slot_taken := false }) := by
    simp [ProxyService.release_slot, hsel, hpool1, exceptOk_bind]
  have hfind1 : findPeer (modifyPeer pool.peers info.agent_id (fun q => q.release_slot now)) info.agent_id = some (p.release_slot now) :=
    findPeer_modifyPeer _ _ _ _ hfind (by simpa [UpstreamPeer.release_slot] using haid)
  have hidle1 : (p.release_slot now).slots_idle = p.slots_idle + 1 := by
    simp only [UpstreamPeer.release_slot, USIZE_eq] at *
    omega
  have hproc1 : (p.release_slot now).slots_processing = p.slots_processing - 1 := by
    simp only [UpstreamPeer.release_slot, USIZE_eq] at *
    omega
  by_cases hr : (cr && !bt) = true
  · refine ⟨UpstreamPeerPool.restore_integrity { pool with peers := modifyPeer pool.peers info.agent_id (fun q => q.release_slot now) }, { ctx with slot_taken := false }, ?_, rfl, p.release_slot now, ?_, hidle1, hproc1, ?_⟩
    · simp [ProxyService.error_while_proxy, htaken, hr, hrel, exceptOk_bind]
    · simpa [UpstreamPeerPool.restore_integrity] using hfind1
    · simp [UpstreamPeer.release_slot, hcust, hr]
  · rw [Bool.not_eq_true] at hr
    have hpermC : (p.release_slot now).slots_permissions = some m := by
      simpa [UpstreamPeer.release_slot] using hcust
    have haid1 : (p.release_slot now).agent_id = info.agent_id := by
      simpa [UpstreamPeer.release_slot] using haid
    have hrelperm : ∃ pool2 : UpstreamPeerPool, ProxyService.release_permit (UpstreamPeerPool.restore_integrity { pool with peers := modifyPeer pool.peers info.agent_id (fun q => q.release_slot now) }) { ctx with slot_taken := false } = Except.ok (pool2, { ctx with slot_taken := false }) ∧ findPeer pool2.peers info.agent_id = some { p.release_slot now with slots_permissions := some (m - 1) } := by
      refine ⟨{ peers := modifyPeer (modifyPeer pool.peers info.agent_id (fun q => q.release_slot now)) info.agent_id (fun _ => { p.release_slot now with slots_permissions := some (m - 1) }), available_permits := (UpstreamPeerPool.restore_integrity { pool with peers := modifyPeer pool.peers info.agent_id (fun q => q.release_slot now) }).available_permits + 1 }, ?_, ?_⟩
      · simp only [ProxyService.release_permit, hsel, UpstreamPeerPool.release_one_permit]
        rw [show findPeer (UpstreamPeerPool.restore_integrity { pool with peers := modifyPeer pool.peers info.agent_id (fun q => q.release_slot now) }).peers info.agent_id = some (p.release_slot now) from hfind1]
        simp only [UpstreamPeer.release_permits, hpermC, hm, if_pos, exceptOk_bind]
        rfl
      · exact findPeer_modifyPeer _ _ _ _ hfind1 (by simpa [UpstreamPeer.release_slot] using haid)
    obtain ⟨pool2, hp2, hf2⟩ := hrelperm
    refine ⟨pool2, { ctx with slot_taken := false }, ?_, rfl, { p.release_slot now with slots_permissions := some (m - 1) }, hf2, ?_, ?_, ?_⟩
    · simp [ProxyService.error_while_proxy, htaken, hr, hrel, hp2, exceptOk_bind]
    · simpa [UpstreamPeer.release_slot] using hidle1
    · simpa [UpstreamPeer.release_slot] using hproc1
    · simp [hr]

/-- C5 witness: a non-retryable mid-stream error on a concrete peer
releases both the slot and the permit. -/
theorem c5_witness :
    ∃ pool2 ctx2,
      ProxyService.error_while_proxy c5pool c5ctx false false 11 =
        Except.ok (pool2, ctx2, false && !false) ∧
      ctx2.slot_taken = false ∧
      ∃ p2, findPeer pool2.peers c5peer.info.agent_id = some p2 ∧
        p2.slots_idle = c5peer.slots_idle + 1 ∧
        p2.slots_processing = c5peer.slots_processing - 1 ∧
        p2.slots_permissions = some (1 - (if false && !false then 0 else 1)) :=
  c5_error_while_proxy c5pool c5ctx false false 11 c5peer.info c5peer 1
    rfl rfl rfl rfl (by decide) (by decide) (by decide) rfl (by decide)

/-- C1: evaluated at a request for `/health` (so `uses_slots = false`) with
no peer selected, the code's `upstream_peer` still acquires an admission
permit — the semaphore drops from 1 to 0 and the permit lands in the
selected peer's custody — although `connected_to_upstream` indeed leaves
the slot counters untouched.  This contradicts the claim (and rule I5)
that a `uses_slots = false` request never acquires a permit. -/
theorem c1_nonslot_request_acquires_permit :
    ProxyService.request_filter true "/health" ProxyService.new_ctx =
      FilterResult.proceed ProxyService.new_ctx ∧
    ProxyService.new_ctx.uses_slots = false ∧
    ProxyService.upstream_peer c1pool ProxyService.new_ctx =
      UpstreamPeerOutcome.ok c1poolAfter c1ctxAfter addrA ∧
    c1pool.available_permits = 1 ∧
    c1poolAfter.available_permits = 0 ∧
    findPeer c1poolAfter.peers "a" = some { peerA with slots_permissions := some 1 } ∧
    ProxyService.connected_to_upstream c1poolAfter c1ctxAfter 7 =
      Except.ok (c1poolAfter, c1ctxAfter) :=
  ⟨rfl, rfl, rfl, rfl, rfl, rfl, rfl⟩
